import Mathlib

/-!
Formal model of the stager relay: the Outbox (watch loop, resolution
pipeline, payload translator, metrics) and the Inbox listener.

The Inbox definitions are translated from src/inbox/inbox.go.  The Outbox
implementation file is not part of the source tree (only its test file is),
so the Outbox definitions are modelled from the specification document, as
marked on each definition.
-/

mutual
/-- A JSON document.  Result documents, annotation payloads and Response
documents are JSON values; only null, string and object shapes occur in the
data handled by this system. -/
inductive Json where
  | null : Json
  | str : String → Json
  | obj : JsonFields → Json
deriving DecidableEq, Repr
inductive JsonFields where
  | nil : JsonFields
  | cons : String → Json → JsonFields → JsonFields
deriving DecidableEq, Repr
end

/-- Build a JSON object field list from a Lean list of key value pairs. -/
def jfields : List (String × Json) → JsonFields
  | [] => .nil
  | (k, v) :: rest => .cons k v (jfields rest)

/-- Build a JSON object from a Lean list of key value pairs. -/
def Json.mkObj (l : List (String × Json)) : Json := .obj (jfields l)

/-- Look a key up in a JSON object field list (first occurrence wins). -/
def JsonFields.lookup : JsonFields → String → Option Json
  | .nil, _ => none
  | .cons k v rest, key => if k = key then some v else rest.lookup key

/-- Look a key up in a JSON value; non-objects have no fields. -/
def Json.lookup : Json → String → Option Json
  | .obj fs, key => fs.lookup key
  | _, _ => none

/-- The keys of a JSON object field list, in order. -/
def JsonFields.keys : JsonFields → List String
  | .nil => []
  | .cons k _ rest => k :: rest.keys

/-- The keys of a JSON value; non-objects have none. -/
def Json.keys : Json → List String
  | .obj fs => fs.keys
  | _ => []

namespace stager

/-- Modelled from the spec: the domain tag of buildpack staging Tasks.  The
package defining this constant is not in the source tree; only the fact that
the two staging domain tags are distinct strings matters below. -/
def TaskDomain : String := "cf-app-staging"

end stager

namespace stager_docker

/-- Modelled from the spec: the domain tag of docker staging Tasks. -/
def TaskDomain : String := "cf-app-docker-staging"

end stager_docker

/-- Modelled from the spec: the pub/sub subject for buildpack staging
Responses.  The constant is declared in the Outbox package (referenced from
src/inbox/inbox.go as outbox.DiegoStageFinishedSubject) whose file is not in
the source tree. -/
def DiegoStageFinishedSubject : String := "diego.staging.finished"

/-- Modelled from the spec: the pub/sub subject for docker staging
Responses, distinct from the buildpack subject. -/
def DiegoDockerStageFinishedSubject : String := "diego.docker.staging.finished"

namespace models

/-- The annotation document a Task carries: the original requester
identifiers, set at submission time and round-tripped unmodified
(models.StagingTaskAnnotation). -/
structure AnnotationDoc where
  appId : String
  taskId : String
deriving DecidableEq, Repr

/-- A completed Task as observed by the Outbox: identifier, domain tag,
result document, annotation document, failure flag and reason, and creation
timestamp in nanoseconds (models.Task, restricted to the fields this system
reads). -/
structure Task where
  guid : String
  domain : String
  result : Json
  annotationDoc : AnnotationDoc
  failed : Bool
  failureReason : String
  createdAt : Int
deriving DecidableEq, Repr

/-- The buildpack variant of a staging result document
(models.StagingResult): buildpack key, detected buildpack, execution
metadata (an opaque string), detected start command map (a nil map is
`none`). -/
structure StagingResult where
  buildpackKey : String
  detectedBuildpack : String
  executionMetadata : String
  detectedStartCommand : Option (List (String × String))
deriving DecidableEq, Repr

/-- The docker variant of a staging result document: execution metadata and
detected start command only, no buildpack fields. -/
structure StagingDockerResult where
  executionMetadata : String
  detectedStartCommand : Option (List (String × String))
deriving DecidableEq, Repr

end models

/-- Parse a JSON object field list whose values must all be strings. -/
def parseStringPairs : JsonFields → Option (List (String × String))
  | .nil => some []
  | .cons k (.str v) rest => (parseStringPairs rest).map (fun r => (k, v) :: r)
  | .cons _ _ _ => none

/-- Read a string field: a missing field or a JSON null yields the zero
value (empty string), a string yields itself, any other shape is a parse
error (Go json.Unmarshal semantics). -/
def parseStringField (fs : JsonFields) (key : String) : Option String :=
  match fs.lookup key with
  | none => some ""
  | some .null => some ""
  | some (.str s) => some s
  | some (.obj _) => none

/-- Read a start command map field: a missing field or a JSON null yields
the zero value (nil map), an object of strings yields the map, any other
shape is a parse error. -/
def parseStartCommandField (fs : JsonFields) (key : String) :
    Option (Option (List (String × String))) :=
  match fs.lookup key with
  | none => some none
  | some .null => some none
  | some (.obj entries) => (parseStringPairs entries).map (fun m => some m)
  | some (.str _) => none

/-- Modelled from the spec: parse a result document as the buildpack
StagingResult variant.  Missing fields take their zero value; a non-object
document or a field of the wrong shape is a parse error. -/
def parseStagingResult : Json → Option models.StagingResult
  | .obj fs => do
      let bk ← parseStringField fs "buildpack_key"
      let db ← parseStringField fs "detected_buildpack"
      let em ← parseStringField fs "execution_metadata"
      let sc ← parseStartCommandField fs "detected_start_command"
      pure ⟨bk, db, em, sc⟩
  | _ => none

/-- Modelled from the spec: parse a result document as the docker
StagingResult variant (no buildpack fields in the schema). -/
def parseStagingDockerResult : Json → Option models.StagingDockerResult
  | .obj fs => do
      let em ← parseStringField fs "execution_metadata"
      let sc ← parseStartCommandField fs "detected_start_command"
      pure ⟨em, sc⟩
  | _ => none

/-- Serialize a detected start command map: a nil map serializes as JSON
null, otherwise as an object of strings. -/
def startCommandJson : Option (List (String × String)) → Json
  | none => .null
  | some m => .obj (jfields (m.map fun kv => (kv.1, Json.str kv.2)))

/-- Modelled from the spec: the serialized buildpack Response document
(models.StagingResponseForCC).  The result fields are always present; the
error field is omitted when empty (the success-case expected payloads in
src/outbox/outbox_test.go carry no error key). -/
def stagingResponseJson (appId taskId buildpackKey detectedBuildpack
    executionMetadata : String)
    (detectedStartCommand : Option (List (String × String)))
    (errorMessage : String) : Json :=
  Json.mkObj ([("app_id", Json.str appId), ("task_id", Json.str taskId),
    ("buildpack_key", Json.str buildpackKey),
    ("detected_buildpack", Json.str detectedBuildpack),
    ("execution_metadata", Json.str executionMetadata),
    ("detected_start_command", startCommandJson detectedStartCommand)] ++
    (if errorMessage = "" then [] else [("error", Json.str errorMessage)]))

/-- Modelled from the spec: the serialized docker Response document, with no
buildpack fields in the schema. -/
def stagingDockerResponseJson (appId taskId executionMetadata : String)
    (detectedStartCommand : Option (List (String × String)))
    (errorMessage : String) : Json :=
  Json.mkObj ([("app_id", Json.str appId), ("task_id", Json.str taskId),
    ("execution_metadata", Json.str executionMetadata),
    ("detected_start_command", startCommandJson detectedStartCommand)] ++
    (if errorMessage = "" then [] else [("error", Json.str errorMessage)]))

/-- A domain tag is recognized when it is one of the two staging domains. -/
def recognizedDomain (d : String) : Prop :=
  d = stager.TaskDomain ∨ d = stager_docker.TaskDomain

instance (d : String) : Decidable (recognizedDomain d) := by
  unfold recognizedDomain
  infer_instance

/-- Modelled from the spec: the Payload Translator.  Pure mapping from a
Task to the pub/sub subject of its domain and its Response document,
branching on domain and failure flag.  A failed Task of either domain
yields the stable schema of that domain with the result fields at their
zero form and the failure reason as the error.  An unrecognized domain or a
result document that does not parse per the expected variant yields none. -/
def translateTask (t : models.Task) : Option (String × Json) :=
  if t.domain = stager.TaskDomain then
    if t.failed then
      some (DiegoStageFinishedSubject,
        stagingResponseJson t.annotationDoc.appId t.annotationDoc.taskId
          "" "" "" none t.failureReason)
    else
      match parseStagingResult t.result with
      | some r => some (DiegoStageFinishedSubject,
          stagingResponseJson t.annotationDoc.appId t.annotationDoc.taskId
            r.buildpackKey r.detectedBuildpack r.executionMetadata
            r.detectedStartCommand "")
      | none => none
  else if t.domain = stager_docker.TaskDomain then
    if t.failed then
      some (DiegoDockerStageFinishedSubject,
        stagingDockerResponseJson t.annotationDoc.appId t.annotationDoc.taskId
          "" none t.failureReason)
    else
      match parseStagingDockerResult t.result with
      | some r => some (DiegoDockerStageFinishedSubject,
          stagingDockerResponseJson t.annotationDoc.appId t.annotationDoc.taskId
            r.executionMetadata r.detectedStartCommand "")
      | none => none
  else none

/-- The observable side effects of one Resolution Pipeline invocation, in
the order they happen. -/
inductive OutboxEvent where
  | resolvingTaskCall : String → OutboxEvent
  | publishAttempt : String → Json → Bool → OutboxEvent
  | resolveTaskCall : String → OutboxEvent
  | counterMetric : String → OutboxEvent
  | durationMetric : String → Int → OutboxEvent
deriving DecidableEq, Repr

/-- The environment a pipeline invocation runs against: whether the
exclusive resolving claim on a given Task identifier succeeds, and whether
a publish on a given subject succeeds at the transport level. -/
structure OutboxEnv where
  resolvingOk : String → Bool
  publishOk : String → Bool

/-- Modelled from the spec: one Resolution Pipeline invocation for one
completed Task.  Domain filter, then exclusive claim, then translation,
then publish on the subject of the domain, then on publish success the
terminal resolve call and the outcome counter and duration metric
(duration is processing time minus creation time, in nanoseconds).  A
failed claim, a failed translation or a failed publish stops the pipeline
with no resolve call; a translation failure leaves the Task claimed, a
documented design choice the spec leaves open. -/
def runPipeline (env : OutboxEnv) (now : Int) (t : models.Task) : List OutboxEvent :=
  if recognizedDomain t.domain then
    OutboxEvent.resolvingTaskCall t.guid ::
    (if env.resolvingOk t.guid then
      match translateTask t with
      | some (subject, payload) =>
        OutboxEvent.publishAttempt subject payload (env.publishOk subject) ::
        (if env.publishOk subject then
          [OutboxEvent.resolveTaskCall t.guid,
           OutboxEvent.counterMetric
             (if t.failed then "StagingRequestsFailed"
              else "StagingRequestsSucceeded"),
           OutboxEvent.durationMetric
             (if t.failed then "StagingRequestFailedDuration"
              else "StagingRequestSucceededDuration") (now - t.createdAt)]
         else [])
      | none => []
     else [])
  else []

/-- The successful publishes among the events of a pipeline invocation. -/
def publishedOk (events : List OutboxEvent) : List (String × Json) :=
  events.filterMap fun e => match e with
    | .publishAttempt s p true => some (s, p)
    | _ => none

/-- All publish attempts, successful or not. -/
def publishAttempts (events : List OutboxEvent) : List (String × Json) :=
  events.filterMap fun e => match e with
    | .publishAttempt s p _ => some (s, p)
    | _ => none

/-- The exclusive claim calls made by a pipeline invocation. -/
def resolvingTaskCalls (events : List OutboxEvent) : List String :=
  events.filterMap fun e => match e with
    | .resolvingTaskCall g => some g
    | _ => none

/-- The terminal resolve calls made by a pipeline invocation. -/
def resolveTaskCalls (events : List OutboxEvent) : List String :=
  events.filterMap fun e => match e with
    | .resolveTaskCall g => some g
    | _ => none

/-- The duration metrics emitted by a pipeline invocation. -/
def durationMetrics (events : List OutboxEvent) : List (String × Int) :=
  events.filterMap fun e => match e with
    | .durationMetric n v => some (n, v)
    | _ => none

/-- An event arriving on the completed-task feed of the store: either a
completed Task or a watch error. -/
inductive FeedEvent where
  | completedTask : models.Task → FeedEvent
  | watchError : FeedEvent
deriving DecidableEq, Repr

/-- An item of the Watch Supervisor trace: a watchCompletedTasks call, the
closing of the current feed after an error, the fixed backoff sleep (in
nanoseconds), or the dispatch of a Task to a Resolution Pipeline. -/
inductive TraceItem where
  | watchCall : TraceItem
  | feedClosed : TraceItem
  | sleepBackoff : Int → TraceItem
  | dispatch : models.Task → TraceItem
deriving DecidableEq, Repr

/-- Modelled from the spec: the fixed resubscription backoff, about three
seconds, in nanoseconds. -/
def watchRetryBackoffNanos : Int := 3000000000

/-- Modelled from the spec: the Watch Supervisor loop processing the feed.
A completed Task is dispatched to an independent pipeline invocation; a
watch error closes the feed, waits the fixed backoff and issues exactly one
new watchCompletedTasks call, then the loop continues on the new
subscription. -/
def superviseEvents : List FeedEvent → List TraceItem
  | [] => []
  | FeedEvent.completedTask t :: rest => TraceItem.dispatch t :: superviseEvents rest
  | FeedEvent.watchError :: rest =>
      TraceItem.feedClosed :: TraceItem.sleepBackoff watchRetryBackoffNanos ::
      TraceItem.watchCall :: superviseEvents rest

/-- The full supervisor trace: the initial watchCompletedTasks call followed
by the processing of the feed events. -/
def superviseTrace (events : List FeedEvent) : List TraceItem :=
  TraceItem.watchCall :: superviseEvents events

/-- The number of watchCompletedTasks calls in a trace. -/
def watchCallCount (items : List TraceItem) : Nat :=
  (items.filter fun i => match i with
    | TraceItem.watchCall => true
    | _ => false).length

/-- Check that, starting from the given number of active subscriptions, at
every point of the trace at most one subscription is active: a watch call
opens one, a feed closure ends one. -/
def activeSubsBounded : Nat → List TraceItem → Bool
  | _, [] => true
  | active, TraceItem.watchCall :: rest =>
      decide (active + 1 ≤ 1) && activeSubsBounded (active + 1) rest
  | active, TraceItem.feedClosed :: rest => activeSubsBounded (active - 1) rest
  | active, _ :: rest => activeSubsBounded active rest

/-- Modelled from the spec: the number of abstract scheduler steps one
Resolution Pipeline invocation takes on the success path; the Response is
published on the final step. -/
def pipelineWork : Nat := 3

/-- A state of the concurrent dispatch machine: Tasks delivered on the feed
and not yet accepted by the supervisor, pipeline invocations in flight with
their remaining work, and Tasks whose Response has been published. -/
structure ConcState where
  pending : List models.Task
  inflight : List (models.Task × Nat)
  published : List models.Task
deriving DecidableEq, Repr

/-- A scheduler choice: let the supervisor accept the next feed Task, or
advance the pipeline invocation at the given in-flight index by one step. -/
inductive SchedChoice where
  | accept : SchedChoice
  | work : Nat → SchedChoice
deriving DecidableEq, Repr

/-- Modelled from the spec: one step of the concurrent dispatch machine.
Accepting a Task never waits on the pipelines in flight; a pipeline whose
last work step runs publishes its Response and leaves the in-flight set. -/
def concStep (s : ConcState) : SchedChoice → Option ConcState
  | SchedChoice.accept =>
      match s.pending with
      | [] => none
      | t :: rest =>
          some { s with pending := rest
                        inflight := s.inflight ++ [(t, pipelineWork)] }
  | SchedChoice.work i =>
      match s.inflight.get? i with
      | none => none
      | some (_, 0) => none
      | some (t, 1) =>
          some { s with inflight := s.inflight.eraseIdx i
                        published := s.published ++ [t] }
      | some (t, n + 2) =>
          some { s with inflight := s.inflight.set i (t, n + 1) }

/-- Run the machine on a schedule, failing on a disabled choice. -/
def concRun (s : ConcState) : List SchedChoice → Option ConcState
  | [] => some s
  | c :: cs =>
      match concStep s c with
      | none => none
      | some s2 => concRun s2 cs

/-- The multiset of Tasks a machine state accounts for. -/
def tasksOf (s : ConcState) : List models.Task :=
  s.pending ++ s.inflight.map Prod.fst ++ s.published

namespace inbox

/-- Translated from src/inbox/inbox.go: the subject the inbox listener
subscribes to. -/
def DiegoStageStartSubject : String := "diego.staging.start"

/-- A staging request from CC (models.StagingRequestFromCC restricted to
the fields src/inbox/inbox.go reads: the identifiers echoed into an error
Response). -/
structure StagingRequestFromCC where
  appId : String
  taskId : String
deriving DecidableEq, Repr

/-- An observable effect of the inbox subscription callback. -/
inductive InboxEffect where
  | logErrorEntry : String → InboxEffect
  | logInfoEntry : String → InboxEffect
  | validateCall : StagingRequestFromCC → InboxEffect
  | stageCall : StagingRequestFromCC → InboxEffect
  | publish : String → Json → InboxEffect
deriving DecidableEq, Repr

/-- Translated from src/inbox/inbox.go (sendErrorResponse): marshal a
StagingResponseForCC carrying the request identifiers and the error message
(marshalling a record of strings cannot fail, so the publish always
happens) for publication on the staging-finished subject. -/
def sendErrorResponsePayload (errorMessage : String)
    (request : StagingRequestFromCC) : Json :=
  stagingResponseJson request.appId request.taskId "" "" "" none errorMessage

/-- Translated from src/inbox/inbox.go: the subscription callback of
Inbox.Listen, as a function of the json.Unmarshal outcome on the message
payload and of the validator and stager collaborators, returning the
effects it performs in order. -/
def handleStagingRequest
    (unmarshalResult : Except String StagingRequestFromCC)
    (validateRequest : StagingRequestFromCC → Except String Unit)
    (stage : StagingRequestFromCC → Except String Unit) : List InboxEffect :=
  match unmarshalResult with
  | Except.error _ => [InboxEffect.logErrorEntry "staging.request.malformed"]
  | Except.ok request =>
    InboxEffect.validateCall request ::
    match validateRequest request with
    | Except.error e =>
      [InboxEffect.logErrorEntry "staging.request.invalid",
       InboxEffect.publish DiegoStageFinishedSubject
         (sendErrorResponsePayload ("Invalid staging request: " ++ e) request)]
    | Except.ok _ =>
      InboxEffect.logInfoEntry "staging.request.received" ::
      InboxEffect.stageCall request ::
      match stage request with
      | Except.error e =>
        [InboxEffect.logErrorEntry "stager.staging.failed",
         InboxEffect.publish DiegoStageFinishedSubject
           (sendErrorResponsePayload ("Staging failed: " ++ e) request)]
      | Except.ok _ => []

end inbox

/-- A sample buildpack result document, mirroring the completed staging
task of the Outbox test suite. -/
def sampleResult : Json := Json.mkObj [("buildpack_key", Json.str "buildpack-key"),
  ("detected_buildpack", Json.str "Some Buildpack"),
  ("execution_metadata", Json.str "some-metadata"),
  ("detected_start_command", Json.mkObj [("web", Json.str "run-command")])]

/-- The parsed form of the sample buildpack result document. -/
def sampleStagingResult : models.StagingResult :=
  { buildpackKey := "buildpack-key"
    detectedBuildpack := "Some Buildpack"
    executionMetadata := "some-metadata"
    detectedStartCommand := some [("web", "run-command")] }

/-- A sample completed buildpack staging Task. -/
def sampleTask : models.Task :=
  { guid := "some-task-id"
    domain := stager.TaskDomain
    result := sampleResult
    annotationDoc := { appId := "my_app_id", taskId := "do_this" }
    failed := false
    failureReason := ""
    createdAt := 100 }

/-- A sample docker result document. -/
def sampleDockerResult : Json := Json.mkObj [
  ("execution_metadata", Json.str "docker-metadata"),
  ("detected_start_command", Json.mkObj [("web", Json.str "run-command")])]

/-- A sample completed docker staging Task. -/
def sampleDockerTask : models.Task :=
  { sampleTask with
    guid := "docker-task-id"
    domain := stager_docker.TaskDomain
    result := sampleDockerResult }

/-- A sample failed buildpack staging Task. -/
def sampleFailedTask : models.Task :=
  { sampleTask with
    guid := "failed-task-id"
    failed := true
    failureReason := "because i said so" }

/-- A sample failed docker staging Task. -/
def sampleFailedDockerTask : models.Task :=
  { sampleDockerTask with
    guid := "failed-docker-task-id"
    failed := true
    failureReason := "because i said so" }

/-- A sample Task of an unrecognized domain. -/
def sampleRandomDomainTask : models.Task :=
  { sampleTask with domain := "some-random-domain" }

/-- An environment where claiming and publishing always succeed. -/
def allOkEnv : OutboxEnv :=
  { resolvingOk := fun _ => true, publishOk := fun _ => true }

/-- An environment where the exclusive claim always fails. -/
def claimFailEnv : OutboxEnv :=
  { resolvingOk := fun _ => false, publishOk := fun _ => true }

/-- An environment where every publish fails at the transport level. -/
def publishFailEnv : OutboxEnv :=
  { resolvingOk := fun _ => true, publishOk := fun _ => false }

/-- The Response document of the sample buildpack Task. -/
def sampleResponsePayload : Json :=
  Json.mkObj [("app_id", Json.str "my_app_id"), ("task_id", Json.str "do_this"),
    ("buildpack_key", Json.str "buildpack-key"),
    ("detected_buildpack", Json.str "Some Buildpack"),
    ("execution_metadata", Json.str "some-metadata"),
    ("detected_start_command", Json.mkObj [("web", Json.str "run-command")])]

/-- A Task the Payload Translator accepts has a recognized staging domain. -/
theorem translateTask_some_recognized {t : models.Task} {x : String × Json}
    (h : translateTask t = some x) : recognizedDomain t.domain := by
  by_cases h1 : t.domain = stager.TaskDomain
  · exact Or.inl h1
  · by_cases h2 : t.domain = stager_docker.TaskDomain
    · exact Or.inr h2
    · simp [translateTask, h1, h2] at h

/-- Claim C1: for every completed, non-failed Task of the buildpack staging
domain whose result document parses as the buildpack StagingResult variant,
the pipeline publishes exactly one Response on the buildpack
staging-finished subject, equal to the four buildpack result fields merged
with the identifiers from the annotation (field order is irrelevant to JSON
object structure; the equality here is syntactic, which entails structural
equality), and then calls resolve exactly once with the Task identifier. -/
theorem outbox_buildpack_success_pipeline (env : OutboxEnv) (now : Int)
    (t : models.Task) (r : models.StagingResult)
    (hdom : t.domain = stager.TaskDomain) (hfail : t.failed = false)
    (hres : parseStagingResult t.result = some r)
    (hclaim : env.resolvingOk t.guid = true)
    (hpub : env.publishOk DiegoStageFinishedSubject = true) :
    runPipeline env now t =
      [OutboxEvent.resolvingTaskCall t.guid,
       OutboxEvent.publishAttempt DiegoStageFinishedSubject
         (Json.mkObj [("app_id", Json.str t.annotationDoc.appId),
           ("task_id", Json.str t.annotationDoc.taskId),
           ("buildpack_key", Json.str r.buildpackKey),
           ("detected_buildpack", Json.str r.detectedBuildpack),
           ("execution_metadata", Json.str r.executionMetadata),
           ("detected_start_command", startCommandJson r.detectedStartCommand)]) true,
       OutboxEvent.resolveTaskCall t.guid,
       OutboxEvent.counterMetric "StagingRequestsSucceeded",
       OutboxEvent.durationMetric "StagingRequestSucceededDuration"
         (now - t.createdAt)] ∧
    publishedOk (runPipeline env now t) =
      [(DiegoStageFinishedSubject,
        Json.mkObj [("app_id", Json.str t.annotationDoc.appId),
          ("task_id", Json.str t.annotationDoc.taskId),
          ("buildpack_key", Json.str r.buildpackKey),
          ("detected_buildpack", Json.str r.detectedBuildpack),
          ("execution_metadata", Json.str r.executionMetadata),
          ("detected_start_command", startCommandJson r.detectedStartCommand)])] ∧
    resolveTaskCalls (runPipeline env now t) = [t.guid] := by
  have h : runPipeline env now t =
      [OutboxEvent.resolvingTaskCall t.guid,
       OutboxEvent.publishAttempt DiegoStageFinishedSubject
         (Json.mkObj [("app_id", Json.str t.annotationDoc.appId),
           ("task_id", Json.str t.annotationDoc.taskId),
           ("buildpack_key", Json.str r.buildpackKey),
           ("detected_buildpack", Json.str r.detectedBuildpack),
           ("execution_metadata", Json.str r.executionMetadata),
           ("detected_start_command", startCommandJson r.detectedStartCommand)]) true,
       OutboxEvent.resolveTaskCall t.guid,
       OutboxEvent.counterMetric "StagingRequestsSucceeded",
       OutboxEvent.durationMetric "StagingRequestSucceededDuration"
         (now - t.createdAt)] := by
    simp [runPipeline, translateTask, recognizedDomain, hdom, hfail, hres, hclaim, hpub,
      stagingResponseJson]
  refine ⟨h, ?_, ?_⟩
  · rw [h]; rfl
  · rw [h]; rfl

/-- Witness for claim C1 at the sample buildpack Task. -/
theorem outbox_buildpack_success_pipeline_witness :
    runPipeline allOkEnv 1000 sampleTask =
      [OutboxEvent.resolvingTaskCall "some-task-id",
       OutboxEvent.publishAttempt DiegoStageFinishedSubject sampleResponsePayload true,
       OutboxEvent.resolveTaskCall "some-task-id",
       OutboxEvent.counterMetric "StagingRequestsSucceeded",
       OutboxEvent.durationMetric "StagingRequestSucceededDuration" 900] := by
  exact (outbox_buildpack_success_pipeline allOkEnv 1000 sampleTask sampleStagingResult
    rfl rfl rfl rfl rfl).1

/-- Claim C2: the terminal resolve operation is called if and only if the
publish of that Task Response succeeded at the transport level; when the
publish call returns an error, no resolve call occurs and the Task is left
claimed but unresolved (the claim call happened, the resolve call did not). -/
theorem outbox_resolve_iff_publish_succeeded (env : OutboxEnv) (now : Int)
    (t : models.Task) :
    (resolveTaskCalls (runPipeline env now t) ≠ [] ↔
      publishedOk (runPipeline env now t) ≠ []) ∧
    (∀ subject payload, translateTask t = some (subject, payload) →
      env.resolvingOk t.guid = true → env.publishOk subject = false →
      runPipeline env now t =
        [OutboxEvent.resolvingTaskCall t.guid,
         OutboxEvent.publishAttempt subject payload false]) := by
  constructor
  · by_cases hd : recognizedDomain t.domain
    · by_cases hc : env.resolvingOk t.guid = true
      · cases htr : translateTask t with
        | none => simp [runPipeline, hd, hc, htr, resolveTaskCalls, publishedOk]
        | some sp =>
          obtain ⟨subject, payload⟩ := sp
          by_cases hp : env.publishOk subject = true
          · simp [runPipeline, hd, hc, htr, hp, resolveTaskCalls, publishedOk]
          · have hp2 : env.publishOk subject = false := by
              cases h2 : env.publishOk subject
              · rfl
              · exact absurd h2 hp
            simp [runPipeline, hd, hc, htr, hp2, resolveTaskCalls, publishedOk]
      · have hc2 : env.resolvingOk t.guid = false := by
          cases h2 : env.resolvingOk t.guid
          · rfl
          · exact absurd h2 hc
        simp [runPipeline, hd, hc2, resolveTaskCalls, publishedOk]
    · simp [runPipeline, hd, resolveTaskCalls, publishedOk]
  · intro subject payload htr hc hp
    have hd : recognizedDomain t.domain := translateTask_some_recognized htr
    simp [runPipeline, hd, hc, htr, hp]

/-- Witness for claim C2: a failing publish on the sample buildpack Task
leaves the Task claimed and unresolved. -/
theorem outbox_resolve_iff_publish_succeeded_witness :
    resolveTaskCalls (runPipeline publishFailEnv 1000 sampleTask) = [] ∧
    runPipeline publishFailEnv 1000 sampleTask =
      [OutboxEvent.resolvingTaskCall "some-task-id",
       OutboxEvent.publishAttempt DiegoStageFinishedSubject
         sampleResponsePayload false] := by
  have h := outbox_resolve_iff_publish_succeeded publishFailEnv 1000 sampleTask
  refine ⟨?_, h.2 DiegoStageFinishedSubject sampleResponsePayload rfl rfl rfl⟩
  exact not_not.mp (fun hne => h.1.mp hne rfl)

/-- Claim C3: for a Task of a recognized staging domain whose exclusive
claim call fails, the pipeline stops silently: nothing is published on any
subject and no resolve call is made. -/
theorem outbox_claim_failure_stops_pipeline (env : OutboxEnv) (now : Int)
    (t : models.Task) (hdom : recognizedDomain t.domain)
    (hclaim : env.resolvingOk t.guid = false) :
    runPipeline env now t = [OutboxEvent.resolvingTaskCall t.guid] ∧
    publishAttempts (runPipeline env now t) = [] ∧
    resolveTaskCalls (runPipeline env now t) = [] := by
  have h : runPipeline env now t = [OutboxEvent.resolvingTaskCall t.guid] := by
    unfold runPipeline
    rw [if_pos hdom, hclaim]
    simp
  exact ⟨h, by rw [h]; rfl, by rw [h]; rfl⟩

/-- Witness for claim C3 at the sample buildpack Task. -/
theorem outbox_claim_failure_stops_pipeline_witness :
    runPipeline claimFailEnv 1000 sampleTask =
      [OutboxEvent.resolvingTaskCall "some-task-id"] ∧
    publishAttempts (runPipeline claimFailEnv 1000 sampleTask) = [] ∧
    resolveTaskCalls (runPipeline claimFailEnv 1000 sampleTask) = [] := by
  exact outbox_claim_failure_stops_pipeline claimFailEnv 1000 sampleTask
    (Or.inl rfl) rfl

/-- Claim C4 counterexample: the failed docker staging Task publishes a
Response on the docker subject with no buildpack_key field at all, refuting
the claim that every failed Task of a recognized staging domain publishes a
Response with buildpack_key present at the empty string. -/
theorem outbox_failed_docker_lacks_buildpack_fields :
    publishedOk (runPipeline allOkEnv 1000 sampleFailedDockerTask) =
      [(DiegoDockerStageFinishedSubject,
        Json.mkObj [("app_id", Json.str "my_app_id"),
          ("task_id", Json.str "do_this"),
          ("execution_metadata", Json.str ""),
          ("detected_start_command", Json.null),
          ("error", Json.str "because i said so")])] ∧
    (Json.mkObj [("app_id", Json.str "my_app_id"),
      ("task_id", Json.str "do_this"),
      ("execution_metadata", Json.str ""),
      ("detected_start_command", Json.null),
      ("error", Json.str "because i said so")]).lookup "buildpack_key" = none := by
  exact ⟨rfl, rfl⟩

/-- Claim C4 (amended): a failed Task of a recognized staging domain
publishes one Response on the subject of its domain carrying the error
(the error field holds the failure reason and is omitted only when the
reason is the empty string), the identifiers from the annotation, and the
result fields of the Task domain at their empty or zero form — for the
buildpack domain empty strings for buildpack_key, detected_buildpack and
execution_metadata and null for detected_start_command; for the docker
domain empty execution_metadata and null detected_start_command with no
buildpack fields — and resolve is called exactly once with the Task
identifier. -/
theorem outbox_failed_task_publishes_error_response (env : OutboxEnv) (now : Int)
    (t : models.Task) (hfail : t.failed = true)
    (hclaim : env.resolvingOk t.guid = true) :
    (t.domain = stager.TaskDomain →
      env.publishOk DiegoStageFinishedSubject = true →
      runPipeline env now t =
        [OutboxEvent.resolvingTaskCall t.guid,
         OutboxEvent.publishAttempt DiegoStageFinishedSubject
           (Json.mkObj ([("app_id", Json.str t.annotationDoc.appId),
             ("task_id", Json.str t.annotationDoc.taskId),
             ("buildpack_key", Json.str ""),
             ("detected_buildpack", Json.str ""),
             ("execution_metadata", Json.str ""),
             ("detected_start_command", Json.null)] ++
             (if t.failureReason = "" then []
              else [("error", Json.str t.failureReason)]))) true,
         OutboxEvent.resolveTaskCall t.guid,
         OutboxEvent.counterMetric "StagingRequestsFailed",
         OutboxEvent.durationMetric "StagingRequestFailedDuration"
           (now - t.createdAt)]) ∧
    (t.domain = stager_docker.TaskDomain →
      env.publishOk DiegoDockerStageFinishedSubject = true →
      runPipeline env now t =
        [OutboxEvent.resolvingTaskCall t.guid,
         OutboxEvent.publishAttempt DiegoDockerStageFinishedSubject
           (Json.mkObj ([("app_id", Json.str t.annotationDoc.appId),
             ("task_id", Json.str t.annotationDoc.taskId),
             ("execution_metadata", Json.str ""),
             ("detected_start_command", Json.null)] ++
             (if t.failureReason = "" then []
              else [("error", Json.str t.failureReason)]))) true,
         OutboxEvent.resolveTaskCall t.guid,
         OutboxEvent.counterMetric "StagingRequestsFailed",
         OutboxEvent.durationMetric "StagingRequestFailedDuration"
           (now - t.createdAt)]) := by
  constructor
  · intro hdom hpub
    simp [runPipeline, translateTask, recognizedDomain, hdom, hfail, hclaim, hpub,
      stagingResponseJson, startCommandJson]
  · intro hdom hpub
    simp [runPipeline, translateTask, recognizedDomain, hdom, hfail, hclaim, hpub,
      stagingDockerResponseJson, startCommandJson,
      show ¬ (stager_docker.TaskDomain = stager.TaskDomain) from by decide]

/-- Witness for the amended claim C4 at the sample failed buildpack Task. -/
theorem outbox_failed_task_publishes_error_response_witness :
    runPipeline allOkEnv 1000 sampleFailedTask =
      [OutboxEvent.resolvingTaskCall "failed-task-id",
       OutboxEvent.publishAttempt DiegoStageFinishedSubject
         (Json.mkObj [("app_id", Json.str "my_app_id"),
           ("task_id", Json.str "do_this"),
           ("buildpack_key", Json.str ""),
           ("detected_buildpack", Json.str ""),
           ("execution_metadata", Json.str ""),
           ("detected_start_command", Json.null),
           ("error", Json.str "because i said so")]) true,
       OutboxEvent.resolveTaskCall "failed-task-id",
       OutboxEvent.counterMetric "StagingRequestsFailed",
       OutboxEvent.durationMetric "StagingRequestFailedDuration" 900] := by
  exact (outbox_failed_task_publishes_error_response allOkEnv 1000 sampleFailedTask
    rfl rfl).1 rfl rfl

/-- Claim C5: a completed, non-failed docker staging Task publishes exactly
one Response on the docker staging-finished subject containing exactly the
four fields app_id, task_id, execution_metadata and detected_start_command,
with no buildpack_key and no detected_buildpack field, and resolve is
called exactly once with the Task identifier. -/
theorem outbox_docker_success_response_fields (env : OutboxEnv) (now : Int)
    (t : models.Task) (r : models.StagingDockerResult)
    (hdom : t.domain = stager_docker.TaskDomain) (hfail : t.failed = false)
    (hres : parseStagingDockerResult t.result = some r)
    (hclaim : env.resolvingOk t.guid = true)
    (hpub : env.publishOk DiegoDockerStageFinishedSubject = true) :
    runPipeline env now t =
      [OutboxEvent.resolvingTaskCall t.guid,
       OutboxEvent.publishAttempt DiegoDockerStageFinishedSubject
         (Json.mkObj [("app_id", Json.str t.annotationDoc.appId),
           ("task_id", Json.str t.annotationDoc.taskId),
           ("execution_metadata", Json.str r.executionMetadata),
           ("detected_start_command", startCommandJson r.detectedStartCommand)]) true,
       OutboxEvent.resolveTaskCall t.guid,
       OutboxEvent.counterMetric "StagingRequestsSucceeded",
       OutboxEvent.durationMetric "StagingRequestSucceededDuration"
         (now - t.createdAt)] ∧
    (Json.mkObj [("app_id", Json.str t.annotationDoc.appId),
      ("task_id", Json.str t.annotationDoc.taskId),
      ("execution_metadata", Json.str r.executionMetadata),
      ("detected_start_command", startCommandJson r.detectedStartCommand)]).keys =
      ["app_id", "task_id", "execution_metadata", "detected_start_command"] ∧
    (Json.mkObj [("app_id", Json.str t.annotationDoc.appId),
      ("task_id", Json.str t.annotationDoc.taskId),
      ("execution_metadata", Json.str r.executionMetadata),
      ("detected_start_command", startCommandJson r.detectedStartCommand)]).lookup
      "buildpack_key" = none ∧
    (Json.mkObj [("app_id", Json.str t.annotationDoc.appId),
      ("task_id", Json.str t.annotationDoc.taskId),
      ("execution_metadata", Json.str r.executionMetadata),
      ("detected_start_command", startCommandJson r.detectedStartCommand)]).lookup
      "detected_buildpack" = none ∧
    resolveTaskCalls (runPipeline env now t) = [t.guid] := by
  have h : runPipeline env now t =
      [OutboxEvent.resolvingTaskCall t.guid,
       OutboxEvent.publishAttempt DiegoDockerStageFinishedSubject
         (Json.mkObj [("app_id", Json.str t.annotationDoc.appId),
           ("task_id", Json.str t.annotationDoc.taskId),
           ("execution_metadata", Json.str r.executionMetadata),
           ("detected_start_command", startCommandJson r.detectedStartCommand)]) true,
       OutboxEvent.resolveTaskCall t.guid,
       OutboxEvent.counterMetric "StagingRequestsSucceeded",
       OutboxEvent.durationMetric "StagingRequestSucceededDuration"
         (now - t.createdAt)] := by
    simp [runPipeline, translateTask, recognizedDomain, hdom, hfail, hres, hclaim,
      hpub, stagingDockerResponseJson,
      show ¬ (stager_docker.TaskDomain = stager.TaskDomain) from by decide]
  refine ⟨h, rfl, rfl, rfl, ?_⟩
  rw [h]
  rfl

/-- Witness for claim C5 at the sample docker Task. -/
theorem outbox_docker_success_response_fields_witness :
    runPipeline allOkEnv 1000 sampleDockerTask =
      [OutboxEvent.resolvingTaskCall "docker-task-id",
       OutboxEvent.publishAttempt DiegoDockerStageFinishedSubject
         (Json.mkObj [("app_id", Json.str "my_app_id"),
           ("task_id", Json.str "do_this"),
           ("execution_metadata", Json.str "docker-metadata"),
           ("detected_start_command", Json.mkObj [("web", Json.str "run-command")])]) true,
       OutboxEvent.resolveTaskCall "docker-task-id",
       OutboxEvent.counterMetric "StagingRequestsSucceeded",
       OutboxEvent.durationMetric "StagingRequestSucceededDuration" 900] := by
  exact (outbox_docker_success_response_fields allOkEnv 1000 sampleDockerTask
    { executionMetadata := "docker-metadata"
      detectedStartCommand := some [("web", "run-command")] }
    rfl rfl rfl rfl rfl).1

/-- Claim C6: a Task whose domain is neither staging domain is silently
ignored: no claim call, no publish on any subject, no resolve call. -/
theorem outbox_unrecognized_domain_ignored (env : OutboxEnv) (now : Int)
    (t : models.Task) (hdom : ¬ recognizedDomain t.domain) :
    runPipeline env now t = [] ∧
    resolvingTaskCalls (runPipeline env now t) = [] ∧
    publishAttempts (runPipeline env now t) = [] ∧
    resolveTaskCalls (runPipeline env now t) = [] := by
  have h : runPipeline env now t = [] := by
    unfold runPipeline
    rw [if_neg hdom]
  exact ⟨h, by rw [h]; rfl, by rw [h]; rfl, by rw [h]; rfl⟩

/-- Witness for claim C6 at the sample Task of an unrecognized domain. -/
theorem outbox_unrecognized_domain_ignored_witness :
    runPipeline allOkEnv 1000 sampleRandomDomainTask = [] ∧
    resolvingTaskCalls (runPipeline allOkEnv 1000 sampleRandomDomainTask) = [] ∧
    publishAttempts (runPipeline allOkEnv 1000 sampleRandomDomainTask) = [] ∧
    resolveTaskCalls (runPipeline allOkEnv 1000 sampleRandomDomainTask) = [] := by
  exact outbox_unrecognized_domain_ignored allOkEnv 1000 sampleRandomDomainTask
    (by decide)

/-- Claim C7: whenever a Task Response is published successfully, exactly
one duration metric is emitted — StagingRequestFailedDuration when the Task
failed, StagingRequestSucceededDuration otherwise — and its value is
exactly the processing time minus the Task creation time, in nanoseconds,
with no rounding or extra delay. -/
theorem outbox_duration_metric_exact (env : OutboxEnv) (now : Int)
    (t : models.Task) (hpub : publishedOk (runPipeline env now t) ≠ []) :
    durationMetrics (runPipeline env now t) =
      [((if t.failed then "StagingRequestFailedDuration"
         else "StagingRequestSucceededDuration"), now - t.createdAt)] := by
  by_cases hd : recognizedDomain t.domain
  · by_cases hc : env.resolvingOk t.guid = true
    · cases htr : translateTask t with
      | none =>
        exact absurd (by simp [runPipeline, hd, hc, htr, publishedOk]) hpub
      | some sp =>
        obtain ⟨subject, payload⟩ := sp
        by_cases hp : env.publishOk subject = true
        · simp [runPipeline, hd, hc, htr, hp, durationMetrics]
        · have hp2 : env.publishOk subject = false := by
            cases h2 : env.publishOk subject
            · rfl
            · exact absurd h2 hp
          exact absurd (by simp [runPipeline, hd, hc, htr, hp2, publishedOk]) hpub
    · have hc2 : env.resolvingOk t.guid = false := by
        cases h2 : env.resolvingOk t.guid
        · rfl
        · exact absurd h2 hc
      exact absurd (by simp [runPipeline, hd, hc2, publishedOk]) hpub
  · exact absurd (by simp [runPipeline, hd, publishedOk]) hpub

/-- Witness for claim C7 at the sample buildpack Task. -/
theorem outbox_duration_metric_exact_witness :
    durationMetrics (runPipeline allOkEnv 1000 sampleTask) =
      [("StagingRequestSucceededDuration", 900)] := by
  exact outbox_duration_metric_exact allOkEnv 1000 sampleTask (by decide)

/-- Task-only feed segments dispatch each Task and touch nothing else. -/
theorem superviseEvents_tasks (ts : List models.Task) :
    superviseEvents (ts.map FeedEvent.completedTask) = ts.map TraceItem.dispatch := by
  induction ts with
  | nil => rfl
  | cons t rest ih => simp [superviseEvents, ih]

/-- Watch calls split over trace concatenation. -/
theorem watchCallCount_append (a b : List TraceItem) :
    watchCallCount (a ++ b) = watchCallCount a + watchCallCount b := by
  simp [watchCallCount, List.filter_append]

/-- Dispatch items contain no watch call. -/
theorem watchCallCount_dispatch (ts : List models.Task) :
    watchCallCount (ts.map TraceItem.dispatch) = 0 := by
  induction ts with
  | nil => rfl
  | cons t rest ih => simp [watchCallCount, List.filter] at ih ⊢

/-- Dispatch items do not change the number of active subscriptions. -/
theorem activeSubsBounded_dispatch (a : Nat) (ts : List models.Task) :
    activeSubsBounded a (ts.map TraceItem.dispatch) = true := by
  induction ts with
  | nil => rfl
  | cons t rest ih => simpa [activeSubsBounded] using ih

/-- Processing any feed suffix from one live subscription keeps at most one
subscription active at every point. -/
theorem activeSubsBounded_superviseEvents (evs : List FeedEvent) :
    activeSubsBounded 1 (superviseEvents evs) = true := by
  induction evs with
  | nil => rfl
  | cons e rest ih =>
    cases e with
    | completedTask t => simpa [superviseEvents, activeSubsBounded] using ih
    | watchError => simpa [superviseEvents, activeSubsBounded] using ih

/-- Claim C8: at most one watchCompletedTasks subscription is active at a
time; after the feed reports one error and no further errors occur, the
supervisor closes the feed, sleeps the fixed backoff of three seconds and
issues exactly one new watchCompletedTasks call (the trace holds exactly
two watch calls in total), after which a Task delivered on the new
subscription is dispatched and processed normally: claimed, published and
resolved. -/
theorem outbox_watch_resubscribes_once_after_error (ts : List models.Task) :
    superviseTrace (FeedEvent.watchError :: ts.map FeedEvent.completedTask) =
      [TraceItem.watchCall, TraceItem.feedClosed,
       TraceItem.sleepBackoff watchRetryBackoffNanos, TraceItem.watchCall] ++
      ts.map TraceItem.dispatch ∧
    watchCallCount
      (superviseTrace (FeedEvent.watchError :: ts.map FeedEvent.completedTask)) = 2 ∧
    (∀ events, activeSubsBounded 0 (superviseTrace events) = true) ∧
    (∀ (env : OutboxEnv) (now : Int) (t : models.Task) (r : models.StagingResult),
      t.domain = stager.TaskDomain → t.failed = false →
      parseStagingResult t.result = some r →
      env.resolvingOk t.guid = true →
      env.publishOk DiegoStageFinishedSubject = true →
      resolvingTaskCalls (runPipeline env now t) = [t.guid] ∧
      publishedOk (runPipeline env now t) ≠ [] ∧
      resolveTaskCalls (runPipeline env now t) = [t.guid]) := by
  refine ⟨?_, ?_, ?_, ?_⟩
  · simp [superviseTrace, superviseEvents, superviseEvents_tasks ts]
  · have h : superviseTrace (FeedEvent.watchError :: ts.map FeedEvent.completedTask) =
        [TraceItem.watchCall, TraceItem.feedClosed,
         TraceItem.sleepBackoff watchRetryBackoffNanos, TraceItem.watchCall] ++
        ts.map TraceItem.dispatch := by
      simp [superviseTrace, superviseEvents, superviseEvents_tasks ts]
    rw [h, watchCallCount_append, watchCallCount_dispatch]
    rfl
  · intro events
    simpa [superviseTrace, activeSubsBounded] using
      activeSubsBounded_superviseEvents events
  · intro env now t r hdom hfail hres hclaim hpub
    have h : runPipeline env now t =
        [OutboxEvent.resolvingTaskCall t.guid,
         OutboxEvent.publishAttempt DiegoStageFinishedSubject
           (stagingResponseJson t.annotationDoc.appId t.annotationDoc.taskId
             r.buildpackKey r.detectedBuildpack r.executionMetadata
             r.detectedStartCommand "") true,
         OutboxEvent.resolveTaskCall t.guid,
         OutboxEvent.counterMetric "StagingRequestsSucceeded",
         OutboxEvent.durationMetric "StagingRequestSucceededDuration"
           (now - t.createdAt)] := by
      simp [runPipeline, translateTask, recognizedDomain, hdom, hfail, hres, hclaim, hpub]
    rw [h]
    refine ⟨rfl, ?_, rfl⟩
    simp [publishedOk]

/-- Witness for claim C8: one feed error then the sample Task. -/
theorem outbox_watch_resubscribes_once_after_error_witness :
    superviseTrace [FeedEvent.watchError, FeedEvent.completedTask sampleTask] =
      [TraceItem.watchCall, TraceItem.feedClosed,
       TraceItem.sleepBackoff 3000000000, TraceItem.watchCall,
       TraceItem.dispatch sampleTask] ∧
    resolveTaskCalls (runPipeline allOkEnv 1000 sampleTask) = ["some-task-id"] := by
  have h := outbox_watch_resubscribes_once_after_error [sampleTask]
  exact ⟨h.1, (h.2.2.2 allOkEnv 1000 sampleTask sampleStagingResult
    rfl rfl rfl rfl rfl).2.2⟩

/-- A list is a permutation of any indexed element consed onto its removal. -/
theorem get_perm_cons_eraseIdx {α : Type} (l : List α) (i : Nat) (a : α)
    (h : l[i]? = some a) : List.Perm l (a :: l.eraseIdx i) := by
  induction l generalizing i with
  | nil => simp at h
  | cons x xs ih =>
    cases i with
    | zero =>
      simp at h
      subst h
      simp [List.eraseIdx]
    | succ i =>
      simp at h
      have hperm := (ih i h).cons x
      exact hperm.trans (List.Perm.swap a x (xs.eraseIdx i))

/-- Updating the second component of an indexed pair leaves the projection
of the first components unchanged. -/
theorem map_fst_set {α β : Type} (l : List (α × β)) (i : Nat) (t : α) (b b2 : β)
    (h : l[i]? = some (t, b)) : (l.set i (t, b2)).map Prod.fst = l.map Prod.fst := by
  induction l generalizing i with
  | nil => rfl
  | cons x xs ih =>
    cases i with
    | zero =>
      simp at h
      subst h
      simp [List.set]
    | succ i =>
      simp at h
      simp [List.set, ih i h]

/-- Pulling an element out of the middle of an append to the front. -/
theorem perm_cons_middle {α : Type} (A B C : List α) (t : α) :
    List.Perm (A ++ (B ++ t :: C)) (t :: (A ++ (B ++ C))) :=
  (List.Perm.append_left A List.perm_middle).trans List.perm_middle

/-- Pulling a last element out of a nested append to the front. -/
theorem perm_move_last {α : Type} (A E C : List α) (t : α) :
    List.Perm (A ++ (E ++ (C ++ [t]))) (t :: (A ++ (E ++ C))) := by
  have h1 : List.Perm (C ++ [t]) (t :: C) := List.perm_append_comm
  have h2 := (List.Perm.append_left E h1).trans List.perm_middle
  exact (List.Perm.append_left A h2).trans List.perm_middle

/-- Every step of the concurrent dispatch machine preserves the multiset of
Tasks it accounts for. -/
theorem concStep_perm {s s2 : ConcState} {c : SchedChoice}
    (h : concStep s c = some s2) :
    List.Perm (tasksOf s2) (tasksOf s) := by
  cases c with
  | accept =>
    cases hp : s.pending with
    | nil => simp [concStep, hp] at h
    | cons t rest =>
      simp [concStep, hp] at h
      subst h
      simp [tasksOf, hp, List.map_append]
      exact perm_cons_middle rest (List.map Prod.fst s.inflight) s.published t
  | work i =>
    cases hg : s.inflight[i]? with
    | none => simp [concStep, hg] at h
    | some p =>
      obtain ⟨t, n⟩ := p
      match n with
      | 0 => simp [concStep, hg] at h
      | 1 =>
        simp [concStep, hg] at h
        subst h
        have hM : List.Perm (s.inflight.map Prod.fst)
            (t :: (s.inflight.eraseIdx i).map Prod.fst) := by
          have hp := get_perm_cons_eraseIdx s.inflight i (t, 1) hg
          exact hp.map Prod.fst
        unfold tasksOf
        dsimp only
        simp only [List.append_assoc]
        have hL := perm_move_last s.pending ((s.inflight.eraseIdx i).map Prod.fst)
          s.published t
        have hR := (List.Perm.append_left s.pending
          (hM.append_right s.published)).trans List.perm_middle
        exact hL.trans hR.symm
      | n + 2 =>
        simp [concStep, hg] at h
        subst h
        have hms : (s.inflight.set i (t, n + 1)).map Prod.fst =
            s.inflight.map Prod.fst := map_fst_set s.inflight i t (n + 2) (n + 1) hg
        unfold tasksOf
        dsimp only
        rw [hms]

/-- A whole run of the machine preserves the multiset of Tasks. -/
theorem concRun_perm (cs : List SchedChoice) (s s2 : ConcState)
    (h : concRun s cs = some s2) : List.Perm (tasksOf s2) (tasksOf s) := by
  induction cs generalizing s with
  | nil =>
    simp [concRun] at h
    subst h
    exact List.Perm.refl _
  | cons c rest ih =>
    cases hs : concStep s c with
    | none => simp [concRun, hs] at h
    | some s1 =>
      simp [concRun, hs] at h
      exact (ih s1 h).trans (concStep_perm hs)

/-- Claim C9: Tasks delivered on the feed are dispatched to independent
concurrent pipeline invocations.  Whatever interleaving the scheduler picks,
once the machine has accepted every delivered Task and no pipeline remains
in flight, the published Responses are exactly the delivered Tasks (as a
multiset), and the supervisor can accept a newly delivered Task whenever
one is pending, however many slow pipelines are in flight — it never
serializes on a single in-flight pipeline. -/
theorem outbox_concurrent_tasks_all_published (ts : List models.Task)
    (cs : List SchedChoice) (s2 : ConcState)
    (hrun : concRun { pending := ts, inflight := [], published := [] } cs = some s2)
    (hpending : s2.pending = []) (hinflight : s2.inflight = []) :
    List.Perm s2.published ts ∧
    (∀ s : ConcState, s.pending ≠ [] →
      (concStep s SchedChoice.accept).isSome = true) := by
  constructor
  · have h := concRun_perm cs _ s2 hrun
    simp [tasksOf, hpending, hinflight] at h
    exact h
  · intro s hs
    cases hp : s.pending with
    | nil => exact absurd hp hs
    | cons t rest => simp [concStep, hp]

/-- Witness for claim C9: three Tasks enqueued before any publish, run on a
schedule that accepts all three first and finishes the second pipeline
before the first. -/
theorem outbox_concurrent_tasks_all_published_witness :
    List.Perm [sampleDockerTask, sampleTask, sampleFailedTask]
      [sampleTask, sampleDockerTask, sampleFailedTask] := by
  exact (outbox_concurrent_tasks_all_published
    [sampleTask, sampleDockerTask, sampleFailedTask]
    [SchedChoice.accept, SchedChoice.accept, SchedChoice.accept,
     SchedChoice.work 1, SchedChoice.work 1, SchedChoice.work 1,
     SchedChoice.work 0, SchedChoice.work 0, SchedChoice.work 0,
     SchedChoice.work 0, SchedChoice.work 0, SchedChoice.work 0]
    { pending := []
      inflight := []
      published := [sampleDockerTask, sampleTask, sampleFailedTask] }
    rfl rfl rfl).1

/-- Claim C10: when the inbound message payload does not unmarshal as a
StagingRequestFromCC, the inbox handler returns after logging only — it
calls neither the request validator nor the stager Stage operation and
publishes nothing on any subject; a Response on the staging-finished
subject (always an error Response) is published only after a validation
failure or a staging submission failure on a well-formed request, never for
a malformed payload. -/
theorem inbox_malformed_request_only_logs :
    (∀ (e : String)
       (validateRequest stage : inbox.StagingRequestFromCC → Except String Unit),
      inbox.handleStagingRequest (Except.error e) validateRequest stage =
        [inbox.InboxEffect.logErrorEntry "staging.request.malformed"]) ∧
    (∀ (unmarshalResult : Except String inbox.StagingRequestFromCC)
       (validateRequest stage : inbox.StagingRequestFromCC → Except String Unit)
       (subject : String) (payload : Json),
      inbox.InboxEffect.publish subject payload ∈
        inbox.handleStagingRequest unmarshalResult validateRequest stage →
      ∃ request, unmarshalResult = Except.ok request ∧
        subject = DiegoStageFinishedSubject ∧
        ((∃ e, validateRequest request = Except.error e ∧
           payload = inbox.sendErrorResponsePayload
             ("Invalid staging request: " ++ e) request) ∨
         (validateRequest request = Except.ok () ∧
          ∃ e, stage request = Except.error e ∧
            payload = inbox.sendErrorResponsePayload
              ("Staging failed: " ++ e) request))) := by
  constructor
  · intro e validateRequest stage
    rfl
  · intro unmarshalResult validateRequest stage subject payload hmem
    cases unmarshalResult with
    | error e => simp [inbox.handleStagingRequest] at hmem
    | ok request =>
      refine ⟨request, rfl, ?_⟩
      cases hv : validateRequest request with
      | error e =>
        simp [inbox.handleStagingRequest, hv] at hmem
        obtain ⟨hs, hp⟩ := hmem
        exact ⟨hs, Or.inl ⟨e, rfl, hp⟩⟩
      | ok u =>
        cases u
        cases hs : stage request with
        | error e =>
          simp [inbox.handleStagingRequest, hv, hs] at hmem
          obtain ⟨hsub, hp⟩ := hmem
          exact ⟨hsub, Or.inr ⟨rfl, e, rfl, hp⟩⟩
        | ok u2 =>
          cases u2
          simp [inbox.handleStagingRequest, hv, hs] at hmem

/-- Witness for claim C10 at a concrete malformed payload. -/
theorem inbox_malformed_request_only_logs_witness :
    inbox.handleStagingRequest (Except.error "invalid character in payload")
      (fun _ => Except.ok ()) (fun _ => Except.ok ()) =
      [inbox.InboxEffect.logErrorEntry "staging.request.malformed"] := by
  exact inbox_malformed_request_only_logs.1 "invalid character in payload"
    (fun _ => Except.ok ()) (fun _ => Except.ok ())
